import Mathlib

/-!
Verification of the PO-file batch-translation tool (translator.py,
translation_manager.py) against its natural-language specification.

The Python source is shallowly embedded: pure fragments become Lean
functions, the remote Gemini call becomes an oracle
`Nat → Option String` giving, for each attempt number, either `none`
(the call raised an exception) or `some text` (the response text, where
`""` triggers the internal `ValueError` for an empty payload).  Python
dynamic values reaching `_process_translation_result` are embedded by
the fragment relevant to the program (None, strings, and dicts with the
keys `type`, `text`, `forms`).  `time.sleep` backoff delays are dropped:
they do not affect any data returned.
-/

namespace PoTool

/-- Double-quote character (written via its code point). -/
def dquoteChar : Char := Char.ofNat 34

/-- Single-quote character (written via its code point). -/
def squoteChar : Char := Char.ofNat 39

/-- Newline character. -/
def nlChar : Char := Char.ofNat 10

/-- ASCII whitespace as recognised by Python `str.strip()` /
`str.isspace()` (space, tab, newline, carriage return, vertical tab,
form feed).  Python additionally strips some Unicode whitespace; the
embedding models the ASCII fragment, which covers every string the
claims mention. -/
def pyIsSpace (c : Char) : Bool :=
  c.toNat = 32 || c.toNat = 9 || c.toNat = 10 || c.toNat = 13 ||
  c.toNat = 11 || c.toNat = 12

/-- Embedding of Python `str.strip()`: remove leading and trailing
whitespace characters. -/
def pyStrip (s : String) : String :=
  String.mk (((s.toList.dropWhile pyIsSpace).reverse.dropWhile pyIsSpace).reverse)

/-- Helper for `split2nl`: prepend a character to the first segment of a
split result (`[]` is treated as one empty segment). -/
def consHead (c : Char) : List (List Char) → List (List Char)
  | [] => [[c]]
  | h :: t => (c :: h) :: t

/-- Embedding of Python `text.split(sep)` for the fixed separator
`"\n\n"` used at translator.py line 128: split at each leftmost
non-overlapping occurrence of two consecutive newlines. -/
def split2nl : List Char → List (List Char)
  | [] => [[]]
  | [c] => [[c]]
  | c1 :: c2 :: rest =>
    if c1 = nlChar && c2 = nlChar then [] :: split2nl rest
    else consHead c1 (split2nl (c2 :: rest))

/-- Response text split on blank lines, as strings
(`response.text.split(chr(10) ++ chr(10))` in translator.py line 128). -/
def respSplit (s : String) : List String :=
  (split2nl s.toList).map (fun l => String.mk l)

/-- Embedding of `GeminiTranslator._clean_translation` (translator.py
lines 49-60): empty input gives `""`; otherwise strip whitespace and
remove one pair of matching surrounding quotes (double or single). -/
def clean_translation (s : String) : String :=
  if s = "" then ""
  else
    let cs := (pyStrip s).toList
    if (cs.head? = some dquoteChar && cs.getLast? = some dquoteChar)
        || (cs.head? = some squoteChar && cs.getLast? = some squoteChar) then
      String.mk ((cs.drop 1).dropLast)
    else
      pyStrip s

/-- `self.max_retries = 3` set in `GeminiTranslator.__init__`
(translator.py line 18). -/
def MAX_RETRIES : Nat := 3

/-- `GeminiTranslator.BATCH_SIZE` (translator.py line 47). -/
def BATCH_SIZE : Nat := 10

/-- One element of `batch_to_translate` built by
`TranslationManager.translate_entries` (lines 203-211): a bare msgid
string for a singular entry, or a msgid/msgid_plural pair (a Python
dict) for a plural entry.  `translate_batch` only formats these into
the prompt text and counts them; its control flow depends on the item
count alone, so the embedding keeps the items abstract. -/
inductive BatchItem where
  | simple (msgid : String)
  | plural (msgid : String) (msgid_plural : String)
deriving Repr, DecidableEq

/-- The retry loop of `GeminiTranslator.translate_batch` (translator.py
lines 120-149), with the remote call abstracted as
`oracle : Nat → Option String` (`none` = `generate_content` raised,
`some t` = a response whose `.text` is `t`).  Returns the resolved
batch together with the number of attempts performed.  `fuel` mirrors
`for attempt in range(max_retries)` and starts equal to `maxRetries`,
so the fuel-0 fallback is unreachable for `maxRetries ≥ 1`
(`max_retries` is the constant 3 in the source). -/
def translateBatchLoop (oracle : Nat → Option String) (n : Nat)
    (maxRetries : Nat) (attempt : Nat) : Nat → List (Option String) × Nat
  | 0 => (List.replicate n none, attempt)
  | fuel + 1 =>
    match oracle attempt with
    | none =>
      -- generate_content raised; caught at line 140
      if attempt = maxRetries - 1 then (List.replicate n none, attempt + 1)
      else translateBatchLoop oracle n maxRetries (attempt + 1) fuel
    | some t =>
      if t = "" then
        -- `if not response.text: raise ValueError(...)` (lines 124-125)
        if attempt = maxRetries - 1 then (List.replicate n none, attempt + 1)
        else translateBatchLoop oracle n maxRetries (attempt + 1) fuel
      else
        let translations := (respSplit t).map clean_translation
        -- length check, lines 131-135: mismatch resolves the batch at once
        if translations.length ≠ n then (List.replicate n none, attempt + 1)
        else (translations.map some, attempt + 1)

/-- Embedding of `GeminiTranslator.translate_batch` (translator.py
lines 105-149).  The second component counts remote attempts
(`generate_content` invocations). -/
def translate_batch (oracle : Nat → Option String) (texts : List BatchItem) :
    List (Option String) × Nat :=
  if texts.isEmpty then ([], 0)
  else translateBatchLoop oracle texts.length MAX_RETRIES 0 MAX_RETRIES

/-- Embedding of `GeminiTranslator.translate` (translator.py lines
151-166): blank input is returned unchanged with no remote attempt;
otherwise the single string goes through `translate_batch` and
`result[0] if result else None` selects the answer. -/
def translate (oracle : Nat → Option String) (text : String) :
    Option String × Nat :=
  if pyStrip text = "" then (some text, 0)
  else
    let r := translate_batch oracle [BatchItem.simple text]
    (match r.1 with
     | [] => none
     | x :: _ => x, r.2)

/-- Plural-translation map, embedding the polib `msgstr_plural` dict
(plural index → string).  Represented as an insertion-ordered
association list, matching Python dict semantics for the operations the
program uses. -/
abbrev PluralMap := List (Nat × String)

/-- Python dict item assignment `m[k] = v`: replace the value of an
existing key in place, else append the new pair. -/
def PluralMap.set : PluralMap → Nat → String → PluralMap
  | [], k, v => [(k, v)]
  | p :: rest, k, v =>
    if p.1 = k then (k, v) :: rest else p :: PluralMap.set rest k v

/-- Python dict lookup `m.get(k)` / `m[k]`. -/
def PluralMap.get : PluralMap → Nat → Option String
  | [], _ => none
  | p :: rest, k => if p.1 = k then some p.2 else PluralMap.get rest k

/-- Python `any(m.values())`: some value is truthy (a non-empty
string). -/
def PluralMap.anyValue (m : PluralMap) : Bool :=
  m.any (fun p => p.2 != "")

/-- Embedding of a polib catalog entry as used by translation_manager.py.
In polib, `msgid_plural` is `""` when the entry has no plural form and
`msgstr_plural` is always present (an empty dict by default); the
dynamically attached attributes `original_msgstr` /
`original_msgstr_plural` are `none` while absent. -/
structure POEntry where
  msgid : String := ""
  msgid_plural : String := ""
  msgstr : String := ""
  msgstr_plural : PluralMap := []
  flags : List String := []
  original_msgstr : Option String := none
  original_msgstr_plural : Option PluralMap := none
deriving Repr, DecidableEq

/-- Per-entry baseline initialisation performed by
`TranslationManager.load_po_file` (translation_manager.py lines 43-50):
entries with neither msgid nor msgid_plural are skipped; otherwise each
missing baseline attribute is captured from the current content.  The
`hasattr(entry, msgid_plural)` guard at line 48 is always true for
polib entries, and `msgstr_plural.copy()` is a value copy. -/
def load_init_entry (e : POEntry) : POEntry :=
  if e.msgid = "" && e.msgid_plural = "" then e
  else
    { e with
      original_msgstr :=
        match e.original_msgstr with
        | none => some e.msgstr
        | some s => some s
      original_msgstr_plural :=
        match e.original_msgstr_plural with
        | none => some e.msgstr_plural
        | some m => some m }

/-- Embedding of the local `is_translated` computation inside
`TranslationManager.get_untranslated_entries` (translation_manager.py
lines 80-87), for a non-fuzzy entry with non-empty msgid. -/
def untranslated_is_translated (e : POEntry) : Bool :=
  if e.msgid_plural != "" then
    (e.msgstr != "") || (!e.msgstr_plural.isEmpty && e.msgstr_plural.anyValue)
  else
    e.msgstr != ""

/-- Embedding of `TranslationManager.get_untranslated_entries`
(translation_manager.py lines 70-92). -/
def get_untranslated_entries : List POEntry → List POEntry
  | [] => []
  | e :: rest =>
    if e.msgid = "" then get_untranslated_entries rest
    else if e.flags.contains "fuzzy" then e :: get_untranslated_entries rest
    else if untranslated_is_translated e then get_untranslated_entries rest
    else e :: get_untranslated_entries rest

/-- The increment condition of the counting loop in
`TranslationManager.get_translation_stats` (translation_manager.py
lines 100-108); the fuzzy `continue` contributes `false`.  This
duplicates the logic of `untranslated_is_translated` because the source
duplicates it. -/
def stats_is_translated (e : POEntry) : Bool :=
  if e.flags.contains "fuzzy" then false
  else if e.msgid_plural != "" then
    (e.msgstr != "") || (!e.msgstr_plural.isEmpty && e.msgstr_plural.anyValue)
  else
    e.msgstr != ""

/-- Result record of `get_translation_stats`.  The
`percent_translated` field of the source dict is a floating-point
display value (`round(translated/total*100, 2)`) that no claim refers
to; it is not modelled. -/
structure TranslationStats where
  total : Nat
  translated : Nat
  untranslated : Nat
deriving Repr, DecidableEq

/-- Embedding of `TranslationManager.get_translation_stats`
(translation_manager.py lines 94-115). -/
def get_translation_stats (po : List POEntry) : TranslationStats :=
  { total := (po.filter (fun e => e.msgid != "")).length
    translated := (po.filter (fun e => e.msgid != "")).countP stats_is_translated
    untranslated :=
      (po.filter (fun e => e.msgid != "")).length -
        (po.filter (fun e => e.msgid != "")).countP stats_is_translated }

/-- Lookup in a string-to-string forms dict (`forms[k]`): the value at
the first matching key. -/
def formsGet : List (String × String) → String → Option String
  | [], _ => none
  | p :: rest, k => if p.1 = k then some p.2 else formsGet rest k

/-- Python membership test `k in forms`. -/
def formsHasKey : List (String × String) → String → Bool
  | [], _ => false
  | p :: rest, k => if p.1 = k then true else formsHasKey rest k

/-- A Python dict reaching `_process_translation_result`, embedded by
the three keys the function reads.  Collapsings, each behaviour-exact
for this function: a non-string value under `type` compares unequal to
both tags, like an absent key; an absent `text` key and an explicit
`None` value both fail `text is not None`; an absent `forms` key
(default `{}`), a `None` value, and a non-dict value (whose indexing
raises and is caught at line 158) all take the no-mutation failure
path.  A dict- or list-valued `text` is never produced by this program
and lies outside the embedded fragment. -/
structure TransDict where
  ttype : Option String := none
  text : Option String := none
  forms : Option (List (String × String)) := none
deriving Repr, DecidableEq

/-- A Python value passed as `translation` to
`_process_translation_result`: `None`, a plain string (what
`GeminiTranslator.translate_batch` actually yields), or a dict. -/
inductive TransValue where
  | pnone
  | pstr (s : String)
  | pdict (d : TransDict)
deriving Repr, DecidableEq

/-- Embedding of `TranslationManager._process_translation_result`
(translation_manager.py lines 133-160).  `None` and strings fail the
`isinstance(translation, dict)` guard (an empty dict fails the
truthiness guard and equally reaches no tag branch); the plural branch
requires a truthy forms dict containing all four keys.  The `getD`
lookups cannot miss: the guard just checked key membership. -/
def process_translation_result (e : POEntry) (t : TransValue) :
    Bool × POEntry :=
  match t with
  | .pnone => (false, e)
  | .pstr _ => (false, e)
  | .pdict d =>
    if d.ttype = some "simple" then
      match d.text with
      | some txt => (true, { e with msgstr := txt })
      | none => (false, e)
    else if d.ttype = some "plural" then
      match d.forms with
      | some m =>
        if !m.isEmpty && formsHasKey m "one" && formsHasKey m "few" &&
            formsHasKey m "many" && formsHasKey m "other" then
          (true,
            { e with
              msgstr_plural :=
                ((e.msgstr_plural.set 0 ((formsGet m "one").getD "")).set 1
                    ((formsGet m "few").getD "")).set 2
                  ((formsGet m "many").getD "")
              msgstr := (formsGet m "one").getD "" })
        else (false, e)
      | none => (false, e)
    else (false, e)

/-- Python `list.remove(x)` dropping the first occurrence; the source
guards it with a membership test, so absence leaves the list as is. -/
def removeFirst : List String → String → List String
  | [], _ => []
  | x :: xs, s => if x = s then xs else x :: removeFirst xs s

/-- Embedding of the per-batch result loop of
`TranslationManager.translate_entries` (translation_manager.py lines
216-220): zip entries with translations, apply each result; on success
increment the translated counter and drop a `fuzzy` flag. -/
def applyBatch (entries : List POEntry) (translations : List TransValue) :
    Nat × List POEntry :=
  (entries.zip translations).foldl
    (fun acc p =>
      let r := process_translation_result p.1 p.2
      if r.1 then
        (acc.1 + 1, acc.2 ++ [{ r.2 with flags := removeFirst r.2.flags "fuzzy" }])
      else
        (acc.1, acc.2 ++ [r.2]))
    (0, [])

/-- The `batch_to_translate` element built for one entry
(translation_manager.py lines 204-211). -/
def entryBatchItem (e : POEntry) : BatchItem :=
  if e.msgid_plural != "" then BatchItem.plural e.msgid e.msgid_plural
  else BatchItem.simple e.msgid

/-- The values of the result list of `translate_batch` as they reach
`_process_translation_result`: `None` or the translated string itself. -/
def liftResult : Option String → TransValue
  | none => TransValue.pnone
  | some s => TransValue.pstr s

/-- One iteration of the batch loop of
`TranslationManager.translate_entries` (lines 201-220) composed with
the real `GeminiTranslator.translate_batch`: dispatch the batch, then
apply the returned slots to the entries. -/
def translateEntriesOneBatch (oracle : Nat → Option String)
    (batch_entries : List POEntry) : Nat × List POEntry :=
  applyBatch batch_entries
    (((translate_batch oracle (batch_entries.map entryBatchItem)).1).map liftResult)

/-- The cap slicing at the head of `TranslationManager.translate_entries`
(translation_manager.py lines 176-177): a positive
`batch_size_override` keeps a prefix, `None` and non-positive values
leave the list whole. -/
def cap_entries (cap : Option Int) (entries : List POEntry) : List POEntry :=
  match cap with
  | some n => if n > 0 then entries.take n.toNat else entries
  | none => entries

/-- The `entries_to_process` filter of `translate_entries` (line 182):
drop entries whose msgid is empty or whitespace-only. -/
def valid_entries (entries : List POEntry) : List POEntry :=
  entries.filter (fun e => pyStrip e.msgid != "")

/-- The set of entries `TranslationManager.translate_entries`
(translation_manager.py lines 170-191) submits to the translator, as a
function of the cap: empty input short-circuits, then the cap slice,
then the blank-msgid filter. -/
def translate_entries_selected (cap : Option Int) (entries : List POEntry) :
    List POEntry :=
  if entries.isEmpty then [] else valid_entries (cap_entries cap entries)

/-- The dispatch decision of menu action 3 in
`TranslationManager.process_file` (translation_manager.py lines
426-433): a cap of exactly 0 skips the call to `translate_entries`
entirely (`continue`); otherwise the cap is forwarded. -/
def process_file_translate_selected (cap : Option Int)
    (pending : List POEntry) : List POEntry :=
  if cap = some 0 then [] else translate_entries_selected cap pending

/-- The ways `TranslationManager.save_po_file` (translation_manager.py
lines 241-271) can proceed: the write-permission guard at line 244
fails, `create_backup` (shutil.copy2) raises at line 250, `po.save`
raises at line 253, or everything succeeds. -/
inductive SaveEnv where
  | writeDenied
  | backupFails
  | persistFails
  | ok
deriving Repr, DecidableEq

/-- The per-entry baseline reset run after a successful `po.save`
(translation_manager.py lines 256-260).  Each `hasattr` test on a
baseline attribute becomes an `isSome` test; the
`hasattr(entry, msgstr_plural)` conjunct at line 259 is always true
for polib entries. -/
def resetBaseline (e : POEntry) : POEntry :=
  { e with
    original_msgstr :=
      if e.original_msgstr.isSome then some e.msgstr else e.original_msgstr
    original_msgstr_plural :=
      if e.original_msgstr_plural.isSome then some e.msgstr_plural
      else e.original_msgstr_plural }

/-- Embedding of `TranslationManager.save_po_file` (translation_manager.py
lines 241-271): every failure (permission guard, backup exception,
persistence exception) returns `false` with the catalog untouched —
the baseline loop runs only after `po.save` returned; success resets
every baseline and returns `true`. -/
def save_po_file (env : SaveEnv) (po : List POEntry) :
    Bool × List POEntry :=
  match env with
  | .writeDenied => (false, po)
  | .backupFails => (false, po)
  | .persistFails => (false, po)
  | .ok => (true, po.map resetBaseline)

/-! Helper lemmas about the dict embeddings. -/

/-- Updating a key and reading any key, for the dict embedding. -/
theorem pluralMap_get_set (m : PluralMap) (k k' : Nat) (v : String) :
    PluralMap.get (PluralMap.set m k v) k'
      = if k' = k then some v else PluralMap.get m k' := by
  induction m with
  | nil =>
    by_cases h : k' = k
    · subst h; simp [PluralMap.set, PluralMap.get]
    · simp [PluralMap.set, PluralMap.get, h, Ne.symm h]
  | cons p rest ih =>
    by_cases hp : p.1 = k
    · subst hp
      by_cases h : k' = p.1
      · subst h; simp [PluralMap.set, PluralMap.get]
      · simp [PluralMap.set, PluralMap.get, h, Ne.symm h]
    · by_cases hpk : p.1 = k'
      · have hk : ¬ k' = k := fun hh => hp (hpk.trans hh)
        simp [PluralMap.set, PluralMap.get, hp, hpk, hk]
      · simp [PluralMap.set, PluralMap.get, hp, hpk, ih]

/-- A successful forms lookup implies key membership. -/
theorem formsHasKey_of_get (m : List (String × String)) (k v : String)
    (h : formsGet m k = some v) : formsHasKey m k = true := by
  induction m with
  | nil => simp [formsGet] at h
  | cons p rest ih =>
    by_cases hp : p.1 = k
    · simp [formsHasKey, hp]
    · simp only [formsGet, if_neg hp] at h
      simp [formsHasKey, hp, ih h]

/-- A successful forms lookup implies the dict is non-empty. -/
theorem isEmpty_false_of_get (m : List (String × String)) (k v : String)
    (h : formsGet m k = some v) : m.isEmpty = false := by
  cases m with
  | nil => simp [formsGet] at h
  | cons p rest => rfl

/-! Claim theorems. -/

/-- Oracle for the C1 evaluation: every attempt answers with one
translated line. -/
def c1Oracle : Nat → Option String := fun _ => some "Privet"

/-- The entry dispatched in the C1 evaluation. -/
def helloEntry : POEntry := { msgid := "Hello" }

/-- C1: the claim that a successful (non-`None`) slot returned by
`translate_batch` is written into the entry fails on the code:
`translate_batch` returns plain strings, and
`_process_translation_result` rejects every non-dict value, so the
slot `some "Privet"` for msgid `"Hello"` is applied as a failure — the
entry keeps `msgstr = ""` and the translated count stays 0.  The third
conjunct shows this for every string result. -/
theorem c1_simple_result_not_applied :
    (translate_batch c1Oracle [BatchItem.simple "Hello"]).1 = [some "Privet"] ∧
    translateEntriesOneBatch c1Oracle [helloEntry] = (0, [helloEntry]) ∧
    (∀ (e : POEntry) (s : String),
      process_translation_result e (TransValue.pstr s) = (false, e)) :=
  ⟨rfl, rfl, fun _ _ => rfl⟩

/-- Oracle for the C2 counterexample: the first attempt yields a
parseable one-element response for a two-item batch; every later
attempt would yield a correctly sized two-element response. -/
def c2Oracle : Nat → Option String :=
  fun i => if i = 0 then some "x" else some "c\n\nd"

/-- C2 counterexample: with `c2Oracle` and a two-item batch, the
response of attempt 0 parses but has 1 element instead of 2, and
`translate_batch` resolves the whole batch to all-`None` after exactly
1 attempt — there is no retry, even though `MAX_RETRIES = 3` and the
response of attempt 1 would have parsed to exactly 2 elements.  This
refutes the claim that a length mismatch is retried up to
`MAX_RETRIES` attempts. -/
theorem c2_length_mismatch_not_retried :
    translate_batch c2Oracle [BatchItem.simple "a", BatchItem.simple "b"]
        = ([none, none], 1) ∧
    (1 : Nat) ≠ MAX_RETRIES ∧
    ((respSplit "c\n\nd").map clean_translation).length = 2 :=
  ⟨rfl, by decide, rfl⟩

/-- C2 (amended): when an attempt returns a non-empty payload that
parses to an element count different from the number of requested
items, `translate_batch` immediately resolves the batch to all-`None`
on that attempt, with no retry; only raised errors and empty payloads
are retried. -/
theorem c2_amended_immediate_all_none (oracle : Nat → Option String)
    (items : List BatchItem) (t : String)
    (h1 : items ≠ []) (h2 : oracle 0 = some t) (h3 : t ≠ "")
    (h4 : ((respSplit t).map clean_translation).length ≠ items.length) :
    translate_batch oracle items = (List.replicate items.length none, 1) := by
  cases items with
  | nil => exact absurd rfl h1
  | cons x xs =>
    simp only [translate_batch, List.isEmpty_cons, MAX_RETRIES]
    simp only [translateBatchLoop, h2, if_neg h3]
    have h4a : (respSplit t).length ≠ xs.length + 1 := by
      simpa using h4
    simp [h4a]

/-- Witness for the amended C2 statement at a concrete input. -/
theorem c2_amended_immediate_all_none_witness :
    translate_batch (fun _ => some "x")
        [BatchItem.simple "a", BatchItem.simple "b"]
      = (List.replicate 2 none, 1) :=
  c2_amended_immediate_all_none (fun _ => some "x")
    [BatchItem.simple "a", BatchItem.simple "b"] "x" (by decide) rfl
    (by decide) (by decide)

/-- C3: save atomicity for baselines.  Every failing outcome of
`save_po_file` (write-permission guard, backup exception, persistence
exception) returns `false` and leaves every in-memory entry — its
edits and its baselines — exactly as it was, with no escaping
exception (the embedding is total).  On the successful outcome, every
entry with a baseline gets it overwritten to its current content (both
singular and plural), and entries without a baseline stay without
one. -/
theorem c3_save_atomicity (env : SaveEnv) (po : List POEntry) :
    (env ≠ SaveEnv.ok → save_po_file env po = (false, po)) ∧
    (env = SaveEnv.ok →
      save_po_file env po = (true, po.map resetBaseline) ∧
      ∀ e ∈ po,
        ((resetBaseline e).original_msgstr
            = if e.original_msgstr.isSome then some e.msgstr else none) ∧
        ((resetBaseline e).original_msgstr_plural
            = if e.original_msgstr_plural.isSome then some e.msgstr_plural
              else none)) := by
  constructor
  · intro h
    cases env with
    | writeDenied => rfl
    | backupFails => rfl
    | persistFails => rfl
    | ok => exact absurd rfl h
  · rintro rfl
    refine ⟨rfl, fun e _ => ⟨?_, ?_⟩⟩
    · cases h : e.original_msgstr <;> simp [resetBaseline, h]
    · cases h : e.original_msgstr_plural <;> simp [resetBaseline, h]

/-- Entry used by the C3 witness: an edited entry with a captured
baseline. -/
def c3Entry : POEntry :=
  { msgid := "id", msgstr := "edited", original_msgstr := some "old" }

/-- Witness for C3 at a concrete catalog: a failing save returns
`false` and changes nothing; a successful save resets the baseline. -/
theorem c3_save_atomicity_witness :
    save_po_file SaveEnv.persistFails [c3Entry] = (false, [c3Entry]) ∧
    save_po_file SaveEnv.ok [c3Entry] = (true, [resetBaseline c3Entry]) ∧
    (resetBaseline c3Entry).original_msgstr = some "edited" := by
  refine ⟨(c3_save_atomicity SaveEnv.persistFails [c3Entry]).1 (by decide), ?_, ?_⟩
  · exact ((c3_save_atomicity SaveEnv.ok [c3Entry]).2 rfl).1
  · have h := (((c3_save_atomicity SaveEnv.ok [c3Entry]).2 rfl).2 c3Entry
      (by simp)).1
    simpa [c3Entry] using h

/-- C4: retry exhaustion.  If every remote attempt fails — the call
raises, or the payload is empty (the internal `ValueError`) — then
`translate_batch` performs exactly `MAX_RETRIES` (3) attempts and
returns a list of `None` of the same length as the input; the
embedding is a total function, so no exception escapes. -/
theorem c4_retry_exhaustion (oracle : Nat → Option String)
    (items : List BatchItem) (h1 : items ≠ [])
    (h2 : ∀ i, i < MAX_RETRIES → oracle i = none ∨ oracle i = some "") :
    translate_batch oracle items
      = (List.replicate items.length none, MAX_RETRIES) := by
  obtain h0 | h0 := h2 0 (by decide) <;>
    obtain ha | ha := h2 1 (by decide) <;>
    obtain hb | hb := h2 2 (by decide) <;>
    cases items with
    | nil => exact absurd rfl h1
    | cons x xs =>
      simp [translate_batch, MAX_RETRIES, translateBatchLoop, h0, ha, hb]

/-- Witness for C4: an oracle that always raises exhausts all three
attempts on a one-item batch. -/
theorem c4_retry_exhaustion_witness :
    translate_batch (fun _ => none) [BatchItem.simple "a"]
      = (List.replicate 1 none, MAX_RETRIES) :=
  c4_retry_exhaustion (fun _ => none) [BatchItem.simple "a"] (by decide)
    (fun _ _ => Or.inl rfl)

/-- C5: zero-cap semantics.  Through the menu dispatch of
`process_file`, a cap of exactly 0 selects no entry at all (the
`continue` skips `translate_entries`), while the absence of a cap
(`None`) selects every pending entry (whitespace-only msgids are the
only ones filtered, and pending entries have non-blank msgids by
hypothesis). -/
theorem c5_zero_cap (pending : List POEntry)
    (h : ∀ e ∈ pending, pyStrip e.msgid ≠ "") :
    process_file_translate_selected (some 0) pending = [] ∧
    process_file_translate_selected none pending = pending := by
  refine ⟨rfl, ?_⟩
  have hv : valid_entries pending = pending := by
    unfold valid_entries
    apply List.filter_eq_self.mpr
    intro a ha
    simpa using h a ha
  cases pending with
  | nil => rfl
  | cons x xs =>
    simpa [process_file_translate_selected, translate_entries_selected,
      cap_entries] using hv

/-- Witness for C5 at a concrete pending list. -/
theorem c5_zero_cap_witness :
    process_file_translate_selected (some 0) [{ msgid := "Hello" }] = [] ∧
    process_file_translate_selected none [{ msgid := "Hello" }]
      = [{ msgid := "Hello" }] :=
  c5_zero_cap [{ msgid := "Hello" }] (by decide)

/-- For a non-fuzzy entry the stats counting condition coincides with
the translation test of `get_untranslated_entries`. -/
theorem stats_pred_eq_untranslated_pred (e : POEntry)
    (hf : e.flags.contains "fuzzy" = false) :
    stats_is_translated e = untranslated_is_translated e := by
  have hf2 : "fuzzy" ∉ e.flags := by simpa using hf
  simp [stats_is_translated, untranslated_is_translated, hf2]

/-- C6: translated-count invariant.  For every catalog, the translated
count of `get_translation_stats` plus the length of
`get_untranslated_entries` equals the number of entries with non-empty
msgid — the untranslated list is the exact complement of the translated
set — and a fuzzy-flagged entry never satisfies the counting condition,
whatever its msgstr. -/
theorem c6_translated_count_invariant (po : List POEntry) :
    (get_translation_stats po).translated
        + (get_untranslated_entries po).length
      = (po.filter (fun e => e.msgid != "")).length ∧
    (get_translation_stats po).translated
      = (po.filter (fun e => e.msgid != "")).length
          - (get_untranslated_entries po).length ∧
    (∀ e : POEntry, e.flags.contains "fuzzy" = true →
      stats_is_translated e = false) := by
  have main : ∀ l : List POEntry,
      (l.filter (fun e => e.msgid != "")).countP stats_is_translated
          + (get_untranslated_entries l).length
        = (l.filter (fun e => e.msgid != "")).length := by
    intro l
    induction l with
    | nil => simp [get_untranslated_entries]
    | cons e rest ih =>
      by_cases hm : e.msgid = ""
      · simpa [get_untranslated_entries, hm, List.filter_cons] using ih
      · by_cases hf : e.flags.contains "fuzzy"
        · have hf2 : "fuzzy" ∈ e.flags := by simpa using hf
          have hs : stats_is_translated e = false := by
            simp [stats_is_translated, hf2]
          simp only [get_untranslated_entries, if_neg hm, if_pos hf]
          simp [List.filter_cons, List.countP_cons, hm, hs]
          omega
        · have hs : stats_is_translated e = untranslated_is_translated e :=
            stats_pred_eq_untranslated_pred e (by simpa using hf)
          by_cases ht : untranslated_is_translated e
          · simp only [get_untranslated_entries, if_neg hm, if_neg hf, if_pos ht,
              List.filter_cons, List.countP_cons]
            simp [hs, ht, hm]
            omega
          · simp only [get_untranslated_entries, if_neg hm, if_neg hf, if_neg ht,
              List.filter_cons, List.countP_cons]
            simp [hs, ht, hm]
            omega
  have h1 :
      (get_translation_stats po).translated
          + (get_untranslated_entries po).length
        = (po.filter (fun e => e.msgid != "")).length := by
    simpa [get_translation_stats] using main po
  refine ⟨h1, by omega, fun e hf => ?_⟩
  have hf2 : "fuzzy" ∈ e.flags := by simpa using hf
  simp [stats_is_translated, hf2]

/-- Witness for C6 at concrete inputs: a fuzzy entry with a non-empty
msgstr is not counted, and the invariant holds on a two-entry
catalog. -/
theorem c6_translated_count_invariant_witness :
    stats_is_translated
        { msgid := "id", msgstr := "done", flags := ["fuzzy"] } = false ∧
    (get_translation_stats
          [{ msgid := "id", msgstr := "done", flags := ["fuzzy"] },
           { msgid := "idb", msgstr := "ok" }]).translated
        + (get_untranslated_entries
            [{ msgid := "id", msgstr := "done", flags := ["fuzzy"] },
             { msgid := "idb", msgstr := "ok" }]).length
      = 2 := by
  constructor
  · exact (c6_translated_count_invariant []).2.2 _ (by decide)
  · have h := (c6_translated_count_invariant
      [{ msgid := "id", msgstr := "done", flags := ["fuzzy"] },
       { msgid := "idb", msgstr := "ok" }]).1
    simpa using h

/-- C7: idempotent baseline capture.  The per-entry load-time
initialisation never changes an already-set `original_msgstr` or
`original_msgstr_plural`, and applying it twice equals applying it
once. -/
theorem c7_baseline_idempotent (e : POEntry) :
    load_init_entry (load_init_entry e) = load_init_entry e ∧
    (∀ s, e.original_msgstr = some s →
      (load_init_entry e).original_msgstr = some s) ∧
    (∀ m, e.original_msgstr_plural = some m →
      (load_init_entry e).original_msgstr_plural = some m) := by
  obtain ⟨mi, mip, ms, mp, fl, o1, o2⟩ := e
  by_cases h : mi = "" && mip = ""
  · simp [load_init_entry, h]
  · cases o1 <;> cases o2 <;>
      simp [load_init_entry, h]

/-- Witness for C7: an entry with captured baselines keeps them. -/
theorem c7_baseline_idempotent_witness :
    load_init_entry (load_init_entry
        { msgid := "id", original_msgstr := some "kept",
          original_msgstr_plural := some [(0, "kp")] })
      = load_init_entry
        { msgid := "id", original_msgstr := some "kept",
          original_msgstr_plural := some [(0, "kp")] } ∧
    (load_init_entry
        { msgid := "id", original_msgstr := some "kept",
          original_msgstr_plural := some [(0, "kp")] }).original_msgstr
      = some "kept" ∧
    (load_init_entry
        { msgid := "id", original_msgstr := some "kept",
          original_msgstr_plural := some [(0, "kp")] }).original_msgstr_plural
      = some [(0, "kp")] :=
  ⟨(c7_baseline_idempotent _).1, (c7_baseline_idempotent _).2.1 "kept" rfl,
    (c7_baseline_idempotent _).2.2 [(0, "kp")] rfl⟩

/-- C8: plural distribution.  Applying a `plural` result whose forms
dict contains all four keys sets `msgstr_plural[0]` to the `one` form,
`[1]` to the `few` form, `[2]` to the `many` form, sets `msgstr` to the
`one` form, and reports success (the `other` form is only required to
be present). -/
theorem c8_plural_distribution (e : POEntry) (m : List (String × String))
    (fa fb fc fd : String)
    (h1 : formsGet m "one" = some fa) (h2 : formsGet m "few" = some fb)
    (h3 : formsGet m "many" = some fc) (h4 : formsGet m "other" = some fd) :
    process_translation_result e
        (TransValue.pdict { ttype := some "plural", forms := some m })
      = (true,
          { e with
            msgstr_plural := ((e.msgstr_plural.set 0 fa).set 1 fb).set 2 fc
            msgstr := fa }) ∧
    PluralMap.get (((e.msgstr_plural.set 0 fa).set 1 fb).set 2 fc) 0
      = some fa ∧
    PluralMap.get (((e.msgstr_plural.set 0 fa).set 1 fb).set 2 fc) 1
      = some fb ∧
    PluralMap.get (((e.msgstr_plural.set 0 fa).set 1 fb).set 2 fc) 2
      = some fc := by
  refine ⟨?_, ?_, ?_, ?_⟩
  · simp [process_translation_result, isEmpty_false_of_get m _ _ h1,
      formsHasKey_of_get m _ _ h1, formsHasKey_of_get m _ _ h2,
      formsHasKey_of_get m _ _ h3, formsHasKey_of_get m _ _ h4,
      h1, h2, h3]
  · simp [pluralMap_get_set]
  · simp [pluralMap_get_set]
  · simp [pluralMap_get_set]

/-- Witness for C8 at a concrete plural entry and forms dict. -/
theorem c8_plural_distribution_witness :
    process_translation_result { msgid := "box", msgid_plural := "boxes" }
        (TransValue.pdict
          { ttype := some "plural",
            forms := some
              [("one", "A"), ("few", "B"), ("many", "C"), ("other", "D")] })
      = (true,
          { msgid := "box", msgid_plural := "boxes",
            msgstr := "A",
            msgstr_plural := [(0, "A"), (1, "B"), (2, "C")] }) := by
  have h := (c8_plural_distribution { msgid := "box", msgid_plural := "boxes" }
    [("one", "A"), ("few", "B"), ("many", "C"), ("other", "D")]
    "A" "B" "C" "D" rfl rfl rfl rfl).1
  simpa using h

/-- C9: apply-failure atomicity.  For a `None` result, any plain
(non-dict) value, a dict with a wrong or missing type tag, or a
`plural` dict whose forms lack any of the four keys, the applier
returns failure and the entry is returned bit-for-bit unchanged —
msgstr, msgstr_plural and flags (including `fuzzy`) keep their prior
values — and the surrounding counting loop does not count the entry
and does not touch its flags. -/
theorem c9_apply_failure_atomic (e : POEntry) (t : TransValue)
    (h : t = TransValue.pnone ∨
      (∃ s, t = TransValue.pstr s) ∨
      (∃ d, t = TransValue.pdict d ∧
        d.ttype ≠ some "simple" ∧ d.ttype ≠ some "plural") ∨
      (∃ d m, t = TransValue.pdict d ∧ d.ttype = some "plural" ∧
        d.forms = some m ∧
        (formsHasKey m "one" = false ∨ formsHasKey m "few" = false ∨
         formsHasKey m "many" = false ∨ formsHasKey m "other" = false))) :
    process_translation_result e t = (false, e) ∧
    applyBatch [e] [t] = (0, [e]) := by
  have hmain : process_translation_result e t = (false, e) := by
    rcases h with rfl | ⟨s, rfl⟩ | ⟨d, rfl, hs, hp⟩ | ⟨d, m, rfl, hty, hfm, hk⟩
    · rfl
    · rfl
    · simp [process_translation_result, hs, hp]
    · rcases hk with hk | hk | hk | hk <;>
        simp [process_translation_result, hty, hfm, hk]
  exact ⟨hmain, by simp [applyBatch, hmain]⟩

/-- Witness for C9: a `None` slot for a fuzzy entry changes nothing and
counts nothing. -/
theorem c9_apply_failure_atomic_witness :
    process_translation_result { msgid := "id", flags := ["fuzzy"] }
        TransValue.pnone
      = (false, { msgid := "id", flags := ["fuzzy"] }) ∧
    applyBatch [{ msgid := "id", flags := ["fuzzy"] }] [TransValue.pnone]
      = (0, [{ msgid := "id", flags := ["fuzzy"] }]) :=
  c9_apply_failure_atomic _ _ (Or.inl rfl)

/-- C10: blank input short-circuit.  A string that is empty or consists
only of whitespace is returned unchanged by `translate` with zero
remote attempts, and `translate_batch` applied to an empty list
returns the empty list with zero remote attempts. -/
theorem c10_blank_no_remote (oracle : Nat → Option String) (text : String)
    (h : ∀ c ∈ text.toList, pyIsSpace c = true) :
    translate oracle text = (some text, 0) ∧
    translate_batch oracle [] = ([], 0) := by
  have hs : pyStrip text = "" := by
    have hd : text.data.dropWhile pyIsSpace = [] :=
      List.dropWhile_eq_nil_iff.mpr (by simpa using h)
    simp only [pyStrip, String.toList, hd, List.reverse_nil, List.dropWhile_nil]
  exact ⟨by simp [translate, hs], rfl⟩

/-- Witness for C10 on a two-space string and the empty batch. -/
theorem c10_blank_no_remote_witness :
    translate (fun _ => none) "  " = (some "  ", 0) ∧
    translate_batch (fun _ => none) [] = ([], 0) :=
  c10_blank_no_remote (fun _ => none) "  " (by decide)

end PoTool
